import Mathlib

/-
Verification of the casex critical-area computation engine
(src/casex/critical_area_models.py, src/casex/conversions.py).

The Python code is embedded shallowly over ℝ.  Scalar NumPy/Python floats
become real numbers; a Python path that raises (TypeError from
np.fromiter over a scalar) or that poisons its outputs with NaN
(0.0/0.0 in the FAA branch when hs = 0) is modelled by `none` of an
`Option` result.  Real division by zero in Lean is total (x / 0 = 0);
wherever that convention could diverge from Python float semantics the
theorems below carry hypotheses (positive friction, positive mass, ...)
that keep the two in agreement, and the NaN-producing case that is
actually reachable inside the guarded formulas (hs = 0 in the FAA
branch) is modelled explicitly by `none`.

Modules of the casex package that are not part of the given source tree
(casex.enums, casex.aircraft_specs, casex.explosion_models,
casex.constants) are modelled from the spec at their interface boundary;
each such definition carries a doc comment saying so.
-/

noncomputable section

namespace Casex

/-- Modelled from the spec: `casex.constants.GRAVITY` is not in the source
tree; the spec fixes g as standard gravity 9.80665 m/s². -/
def GRAVITY : ℝ := 9.80665

/-- From src/casex/conversions.py: foot-pound to joule. -/
def ftlb_to_J (energy : ℝ) : ℝ := energy * 1.355818

/-- Modelled from the spec: `casex.enums.ECriticalAreaModel` is not in the
source tree; the spec names the closed set of five models. -/
inductive ECriticalAreaModel
  | RCC
  | RTI
  | FAA
  | NAWCAD
  | JARUS
deriving DecidableEq

/-- The `critical_area_model` argument as Python receives it: either a member
of the enum, or a value of some other type (the `isinstance` check fails). -/
inductive ModelArg
  | valid (m : ECriticalAreaModel)
  | invalid

/-- Lines 83-85 of critical_area_models.py: a non-member model argument is
replaced by RCC (after a warning; warnings are not modelled). -/
def resolve_model : ModelArg → ECriticalAreaModel
  | .valid m => m
  | .invalid => ECriticalAreaModel.RCC

/-- Modelled from the spec: `casex.aircraft_specs.AircraftSpecs` is not in the
source tree; the spec describes it as a plain data record.  Only the fields
read by critical_area are modelled; fuel_type is consumed solely by the
external explosion interface and is folded into `ExplosionOut`. -/
structure AircraftSpecs where
  width : ℝ
  length : ℝ
  mass : ℝ
  friction_coefficient : ℝ
  coefficient_of_restitution : ℝ
  fuel_quantity : ℝ

/-- Modelled from the spec: the external explosion interface
(casex.explosion_models) is out of scope and consumed as pure functions;
only its two outputs used by critical_area are modelled: the fireball area
FB and the thermal lethal area TLA at lethality probability 0.1, both in m². -/
structure ExplosionOut where
  FB : ℝ
  TLA : ℝ

/-- np.deg2rad / np.radians. -/
def deg2rad (x : ℝ) : ℝ := x * (Real.pi / 180)

/-- horizontal_speed_from_angle: |cos(angle)| * speed. -/
def horizontal_speed_from_angle (impact_angle impact_speed : ℝ) : ℝ :=
  |Real.cos (deg2rad impact_angle)| * impact_speed

/-- slide_distance_friction: v*v / 2 / f / g. -/
def slide_distance_friction (velocity friction_coefficient : ℝ) : ℝ :=
  velocity * velocity / 2 / friction_coefficient / GRAVITY

/-- check_glide_angle on a scalar (Python float) argument.  The two coercion
branches call np.fromiter(map(...)) on the scalar, which raises TypeError
(a float is not iterable); those paths are `none`.  The fold branch is plain
scalar arithmetic and succeeds. -/
def check_glide_angle (glide_angle : ℝ) : Option ℝ :=
  if glide_angle < 0 ∨ glide_angle > 180 then none
  else
    let a := if glide_angle > 90 then 180 - glide_angle else glide_angle
    if a < 1 then none else some a

/-- The element-wise action of check_glide_angle on an ndarray argument
(size > 1): each coercion map is the identity outside its condition, so the
conditional np.any applications reduce to this per-element function. -/
def check_glide_angle_elt (x : ℝ) : ℝ :=
  let a1 := if x < 0 ∨ x > 180 then 90 else x
  let a2 := if a1 > 90 then 180 - a1 else a1
  if a2 < 1 then 1 else a2

/-- glide_distance on a scalar angle: height is coerced to 0 when negative
(the instance mutation is modelled separately by `glide_distance_run`),
then height / tan(radians(angle)). -/
def glide_distance (height glide_angle : ℝ) : Option ℝ :=
  let h := if height < 0 then 0 else height
  (check_glide_angle glide_angle).map fun a => h / Real.tan (deg2rad a)

/-- The element-wise value of glide_distance on an ndarray of angles. -/
def glide_distance_elt (height glide_angle : ℝ) : ℝ :=
  (if height < 0 then 0 else height) /
    Real.tan (deg2rad (check_glide_angle_elt glide_angle))

/-- The engine instance: the geometry configured at construction. -/
structure CCriticalAreaModels where
  buffer : ℝ
  height : ℝ

/-- glide_distance including its side effect on the engine instance:
line 263 of critical_area_models.py assigns `self.height = 0` when the
configured height is negative.  Returns the instance as it is after the
call together with the returned value. -/
def glide_distance_run (s : CCriticalAreaModels) (glide_angle : ℝ) :
    CCriticalAreaModels × Option ℝ :=
  let s1 := if s.height < 0 then { s with height := 0 } else s
  (s1, (check_glide_angle glide_angle).map fun a => s1.height / Real.tan (deg2rad a))

/-- RCC branch (lines 98-105): rectangular glide footprint and
friction-based slide, both widened by 2*buffer. -/
def rcc_areas (buffer : ℝ) (ac : AircraftSpecs) (hspeed gd : ℝ) : ℝ × ℝ :=
  ((ac.length + gd + 2 * buffer) * (ac.width + 2 * buffer),
   slide_distance_friction hspeed ac.friction_coefficient * (ac.width + 2 * buffer))

/-- RTI branch (lines 107-114): capsule glide footprint; the slide speed is
scaled by the coefficient of restitution. -/
def rti_areas (buffer : ℝ) (ac : AircraftSpecs) (hspeed gd : ℝ) : ℝ × ℝ :=
  (2 * (buffer + ac.width / 2) * gd + Real.pi * (buffer + ac.width / 2) ^ 2,
   slide_distance_friction (ac.coefficient_of_restitution * hspeed)
       ac.friction_coefficient * (2 * buffer + ac.width))

/-- FAA branch, F_A default (line 122-125): 4.36 unless var1 overrides it. -/
def faa_F_A (var1 : ℝ) : ℝ := if var1 = -1 then 4.36 else var1

/-- FAA branch, the offset term hs (line 128). -/
def faa_hs (height impact_angle : ℝ) : ℝ :=
  height * Real.sin (deg2rad (90 - impact_angle))

/-- FAA branch, the discriminant before the clamp of line 133 (line 129). -/
def faa_y2m_raw (buffer width F_A height impact_angle : ℝ) : ℝ :=
  let r_D := buffer + width / 2
  let r_Ac := buffer + width / 2 * Real.sqrt F_A
  let hs := faa_hs height impact_angle
  (2 * r_Ac * hs) ^ 2 - (r_Ac ^ 2 + hs ^ 2 - r_D ^ 2) ^ 2

/-- FAA branch, the circle-circle lens correction A_C_mark (lines 133-140),
for hs ≠ 0 (for hs = 0 the source computes 0.0/0.0 = NaN; `faa_areas`
models that case as `none`). -/
def faa_A_C_mark (buffer width F_A height impact_angle : ℝ) : ℝ :=
  let r_D := buffer + width / 2
  let r_Ac := buffer + width / 2 * Real.sqrt F_A
  let hs := faa_hs height impact_angle
  let y2m := max 0 (faa_y2m_raw buffer width F_A height impact_angle)
  let y2 := Real.sqrt y2m / (2 * hs)
  2 * y2 * hs +
    (y2 * Real.sqrt (r_D ^ 2 - y2 ^ 2) + r_D ^ 2 * Real.arcsin (y2 / r_D)) -
    (y2 * Real.sqrt (r_Ac ^ 2 - y2 ^ 2) + r_Ac ^ 2 * Real.arcsin (y2 / r_Ac))

/-- FAA branch (lines 116-146): the glide area and the remainder slide area.
When hs = 0 the source divides 0.0 by 0.0 and the NaN poisons A_C_mark and
everything downstream; that case is `none`. -/
def faa_areas (buffer height : ℝ) (ac : AircraftSpecs) (impact_angle var1 : ℝ) :
    Option (ℝ × ℝ) :=
  let F_A := faa_F_A var1
  if faa_hs height impact_angle = 0 then none
  else
    let LA_inert := Real.pi * (buffer + ac.width / 2 * Real.sqrt F_A) ^ 2 +
      faa_A_C_mark buffer ac.width F_A height impact_angle
    let glide_area := Real.pi * (buffer + ac.width / 2) ^ 2
    some (glide_area, LA_inert - glide_area)

/-- NAWCAD branch, lethal kinetic-energy default (lines 150-153). -/
def nawcad_KE (var1 : ℝ) : ℝ := if var1 = -1 then ftlb_to_J 54 else var1

/-- NAWCAD branch (lines 148-175).  Note: t_safe uses the raw horizontal
impact speed, not the restitution-scaled one. -/
def nawcad_areas (buffer : ℝ) (ac : AircraftSpecs) (var1 hspeed gd : ℝ) : ℝ × ℝ :=
  let KE_lethal := nawcad_KE var1
  let velocity_min_kill := Real.sqrt (2 * KE_lethal / ac.mass)
  let acceleration := ac.friction_coefficient * GRAVITY
  let t_safe := max 0 ((hspeed - velocity_min_kill) / acceleration)
  let skid := hspeed * t_safe - 0.5 * acceleration * t_safe * t_safe
  (gd * (2 * buffer + ac.width), skid * (2 * buffer + ac.width))

/-- JARUS branch, lethal kinetic-energy default (lines 178-183):
290 J, doubled when the width is at most 1 m. -/
def jarus_KE (width var1 : ℝ) : ℝ :=
  if var1 = -1 then (if width ≤ 1 then 290 * 2 else 290) else var1

/-- JARUS branch (lines 177-196): NAWCAD kinematics on the
restitution-scaled horizontal speed, with the RTI capsule glide footprint. -/
def jarus_areas (buffer : ℝ) (ac : AircraftSpecs) (var1 hspeed gd : ℝ) : ℝ × ℝ :=
  let KE_lethal := jarus_KE ac.width var1
  let velocity_min_kill := Real.sqrt (2 * KE_lethal / ac.mass)
  let acceleration := ac.friction_coefficient * GRAVITY
  let t_safe := max 0
    ((ac.coefficient_of_restitution * hspeed - velocity_min_kill) / acceleration)
  let sd := ac.coefficient_of_restitution * hspeed * t_safe -
    0.5 * acceleration * t_safe * t_safe
  let circular_end := Real.pi * (buffer + ac.width / 2) ^ 2
  (2 * (buffer + ac.width / 2) * gd + circular_end, sd * (2 * buffer + ac.width))

/-- The per-model (glide_area, slide_area) pair of the dispatcher's branch. -/
def model_areas (m : ECriticalAreaModel) (buffer height : ℝ) (ac : AircraftSpecs)
    (impact_angle var1 hspeed gd : ℝ) : Option (ℝ × ℝ) :=
  match m with
  | .RCC => some (rcc_areas buffer ac hspeed gd)
  | .RTI => some (rti_areas buffer ac hspeed gd)
  | .FAA => faa_areas buffer height ac impact_angle var1
  | .NAWCAD => some (nawcad_areas buffer ac var1 hspeed gd)
  | .JARUS => some (jarus_areas buffer ac var1 hspeed gd)

/-- Lines 202-206: the deflagration area is the larger of the fireball area
and the thermal lethal area supplied by the external explosion interface. -/
def LA_deflagration (ex : ExplosionOut) : ℝ := max ex.FB ex.TLA

/-- The clamp applied to critical_areas_overlap on line 209. -/
def clamp01 (c : ℝ) : ℝ := max 0 (min c 1)

/-- Lines 208-211: total = inert + deflagration - min(inert, deflagration)
times the clamped overlap. -/
def combine_overlap (LA_inert LA_defl c : ℝ) : ℝ :=
  LA_inert + LA_defl - min LA_inert LA_defl * clamp01 c

/-- critical_area (lines 31-211) on scalar inputs, composed from the pieces
above in source order.  The height coercion performed inside the
glide_distance call happens before the FAA branch reads self.height, so the
branch sees the coerced height.  `none` stands for a call that raises
(TypeError in check_glide_angle) or returns NaN-poisoned outputs
(hs = 0 in the FAA branch). -/
def critical_area (buffer height : ℝ) (model : ModelArg) (ac : AircraftSpecs)
    (ex : ExplosionOut) (impact_speed impact_angle critical_areas_overlap var1 : ℝ) :
    Option (ℝ × ℝ × ℝ × ℝ × ℝ) :=
  let m := resolve_model model
  let height1 := if height < 0 then 0 else height
  let hspeed := horizontal_speed_from_angle impact_angle impact_speed
  (glide_distance height impact_angle).bind fun gd =>
    (model_areas m buffer height1 ac impact_angle var1 hspeed gd).map fun gs =>
      let LA_inert := gs.1 + gs.2
      let defl := LA_deflagration ex
      (combine_overlap LA_inert defl critical_areas_overlap, gs.1, gs.2, LA_inert, defl)

/-- compute_minimum_CDF (lines 327-347): probability of no obstacle in the
corridor.  np.power with real operands is Real.rpow. -/
def p_none_minimum (obstacle_density width distance_glide_slide : ℝ) : ℝ :=
  (1 - width * distance_glide_slide / 1000000) ^ obstacle_density

/-- compute_minimum_CDF, the approximated CDF evaluated at x (line 336);
the returned arrays sample this function on a linspace grid. -/
def minimum_CDF_at (obstacle_density width distance_glide_slide x : ℝ) : ℝ :=
  1 - (1 - x / distance_glide_slide) ^
    (obstacle_density * (width * distance_glide_slide) / 1000000)

/-- compute_minimum_CDF, the reduced area (lines 341-345): below the
p < 1 - p_none threshold the corridor area Ac is scaled by the reduction
factor, otherwise it is returned whole.  The x / y sampling arrays (pure
plot output, the resolution parameter) are not modelled. -/
def Ac_reduced (obstacle_density width distance_glide_slide p : ℝ) : ℝ :=
  let Ac := width * distance_glide_slide
  let p_none := p_none_minimum obstacle_density width distance_glide_slide
  if p < 1 - p_none then
    Ac * (1 - (1 - p / (1 - p_none)) ^ (1 / (obstacle_density / 1000000 * Ac)))
  else Ac

/-- simulate_minimum_CDF, the per-object membership test of lines 382-386:
inside the corridor when the along-corridor location is below the corridor
length and the across draw is below width/1000. -/
def inside_CA (distance_glide_slide width : ℝ) (p : ℝ × ℝ) : Bool :=
  decide (p.1 < distance_glide_slide) && decide (p.2 < width / 1000)

/-- simulate_minimum_CDF, the surviving along-corridor locations of one
trial (line 389): the location draws filtered by the paired membership test. -/
def survivors (distance_glide_slide width : ℝ) (locs us : List ℝ) : List ℝ :=
  ((locs.zip us).filter (inside_CA distance_glide_slide width)).map Prod.fst

/-- simulate_minimum_CDF, the recorded stopping distance of one trial
(lines 391-394): the minimum surviving location, or the full corridor
length when no object survives. -/
def trial_min_distance (distance_glide_slide width : ℝ) (locs us : List ℝ) : ℝ :=
  (survivors distance_glide_slide width locs us).min?.getD distance_glide_slide

/-- simulate_minimum_CDF (lines 361-398) with the random draws passed
explicitly: one (locations, across-draws) pair per trial, each list of
length round(obstacle_density).  Returns the stopping-distance vector and
the count of trials with no object inside the corridor. -/
def simulate_minimum_CDF (distance_glide_slide width : ℝ)
    (draws : List (List ℝ × List ℝ)) : List ℝ × ℕ :=
  (draws.map fun d => trial_min_distance distance_glide_slide width d.1 d.2,
   (draws.filter fun d =>
     (survivors distance_glide_slide width d.1 d.2).isEmpty).length)

/- ------------------------------------------------------------------ -/
/- Helper lemmas                                                       -/
/- ------------------------------------------------------------------ -/

theorem clamp01_nonneg (c : ℝ) : 0 ≤ clamp01 c := le_max_left 0 _

theorem clamp01_le_one (c : ℝ) : clamp01 c ≤ 1 :=
  max_le (by norm_num) (min_le_right c 1)

/-- The overlap fraction reaches the result only through its clamp. -/
theorem critical_area_overlap_congr (buffer height : ℝ) (model : ModelArg)
    (ac : AircraftSpecs) (ex : ExplosionOut) (speed angle var1 c c' : ℝ)
    (h : clamp01 c = clamp01 c') :
    critical_area buffer height model ac ex speed angle c var1 =
      critical_area buffer height model ac ex speed angle c' var1 := by
  simp only [critical_area]
  cases glide_distance height angle with
  | none => rfl
  | some gd =>
    simp only [Option.some_bind]
    cases model_areas (resolve_model model) buffer
        (if height < 0 then 0 else height) ac angle var1
        (horizontal_speed_from_angle angle speed) gd with
    | none => rfl
    | some gs => simp [combine_overlap, h]

/- ------------------------------------------------------------------ -/
/- Claim theorems                                                      -/
/- ------------------------------------------------------------------ -/

/-- C8: critical_area called with a model argument that is not a member of
the five-model enum substitutes RCC and returns the same five-tuple as the
identical call with model RCC; it does not fail.  (The warning channel is
not modelled.) -/
theorem C8_invalid_model_defaults_to_RCC (buffer height : ℝ) (ac : AircraftSpecs)
    (ex : ExplosionOut) (speed angle c var1 : ℝ) :
    critical_area buffer height ModelArg.invalid ac ex speed angle c var1 =
      critical_area buffer height (ModelArg.valid ECriticalAreaModel.RCC)
        ac ex speed angle c var1 := rfl

/-- C9: for every glide angle a in (90, 180], glide_distance at a equals
glide_distance at 180 - a (fold symmetry); in particular 170 degrees gives
the same value as 10 degrees. -/
theorem C9_glide_fold (h a : ℝ) (h1 : 90 < a) (h2 : a ≤ 180) :
    glide_distance h a = glide_distance h (180 - a) := by
  unfold glide_distance check_glide_angle
  have hn1 : ¬(a < 0 ∨ a > 180) := by push_neg; constructor <;> linarith
  have hn2 : ¬(180 - a < 0 ∨ 180 - a > 180) := by push_neg; constructor <;> linarith
  rw [if_neg hn1, if_neg hn2]
  have hngt : ¬(180 - a > 90) := by linarith
  simp only [if_pos h1, if_neg hngt]

/-- C9 witness: the fold at 170 degrees, which equals the value at
180 - 170 = 10 degrees. -/
theorem C9_glide_fold_at_170 :
    glide_distance (9/5) 170 = glide_distance (9/5) (180 - 170) :=
  C9_glide_fold (9/5) 170 (by norm_num) (by norm_num)

/-- C6 (code bug): glide_distance mutates the configured geometry.  With
configured height -1, after the call the instance's height field is 0,
no longer the configured -1. -/
theorem C6_height_mutated :
    (glide_distance_run ⟨3/10, -1⟩ 45).1.height = 0 ∧
    (glide_distance_run ⟨3/10, -1⟩ 45).1.height ≠ (-1 : ℝ) := by
  have h1 : (glide_distance_run ⟨3/10, -1⟩ 45).1 = ⟨3/10, 0⟩ := by
    unfold glide_distance_run
    norm_num
  rw [h1]
  norm_num

/-- C5 (code bug for scalar input): for a scalar glide angle strictly between
0 and 1 degree, the clamping branch of check_glide_angle raises TypeError
(np.fromiter over a float), modelled as none, instead of continuing; the
element-wise (ndarray) path clamps the angle to 1 degree and returns the
same glide distance as at exactly 1 degree. -/
theorem C5_small_angle (h a : ℝ) (h0 : 0 < a) (h1 : a < 1) :
    glide_distance h a = none ∧
    check_glide_angle_elt a = 1 ∧
    glide_distance_elt h a = glide_distance_elt h 1 := by
  have hn : ¬(a < 0 ∨ a > 180) := by push_neg; constructor <;> linarith
  have hng : ¬(a > 90) := by linarith
  have helt : check_glide_angle_elt a = 1 := by
    unfold check_glide_angle_elt
    rw [if_neg hn]
    simp only [if_neg hng, if_pos h1]
  refine ⟨?_, helt, ?_⟩
  · unfold glide_distance check_glide_angle
    rw [if_neg hn]
    simp only [if_neg hng, if_pos h1, Option.map_none']
  · have helt1 : check_glide_angle_elt 1 = 1 := by
      unfold check_glide_angle_elt
      norm_num
    unfold glide_distance_elt
    rw [helt, helt1]

/-- C5 witness: at the scalar angle 1/2 degree the call is the TypeError
path, while the element-wise path agrees with the value at 1 degree. -/
theorem C5_small_angle_at_half :
    glide_distance (9/5) (1/2) = none ∧
    check_glide_angle_elt (1/2) = 1 ∧
    glide_distance_elt (9/5) (1/2) = glide_distance_elt (9/5) 1 :=
  C5_small_angle (9/5) (1/2) (by norm_num) (by norm_num)

/-- C2: critical_area combines the inert and deflagration areas exactly as
total = inert + deflagration - min(inert, deflagration) * clamp(overlap, 0, 1),
and the overlap fraction enters only through that clamp: overlap 1.5 yields
the identical five-tuple as overlap 1, and overlap -0.2 the identical
five-tuple as overlap 0. -/
theorem C2_overlap_clamped (buffer height : ℝ) (model : ModelArg)
    (ac : AircraftSpecs) (ex : ExplosionOut) (speed angle var1 c : ℝ) :
    ((critical_area buffer height model ac ex speed angle c var1).map fun r => r.1) =
      ((critical_area buffer height model ac ex speed angle c var1).map fun r =>
        r.2.2.2.1 + r.2.2.2.2 - min r.2.2.2.1 r.2.2.2.2 * max 0 (min c 1)) ∧
    critical_area buffer height model ac ex speed angle (3/2) var1 =
      critical_area buffer height model ac ex speed angle 1 var1 ∧
    critical_area buffer height model ac ex speed angle (-(1/5)) var1 =
      critical_area buffer height model ac ex speed angle 0 var1 := by
  refine ⟨?_, ?_, ?_⟩
  · simp only [critical_area]
    cases glide_distance height angle with
    | none => rfl
    | some gd =>
      simp only [Option.some_bind]
      cases model_areas (resolve_model model) buffer
          (if height < 0 then 0 else height) ac angle var1
          (horizontal_speed_from_angle angle speed) gd with
      | none => rfl
      | some gs => simp [combine_overlap, clamp01]
  · refine critical_area_overlap_congr _ _ _ _ _ _ _ _ _ _ ?_
    unfold clamp01
    rw [min_eq_right (by norm_num : (1:ℝ) ≤ 3/2), min_self]
  · refine critical_area_overlap_congr _ _ _ _ _ _ _ _ _ _ ?_
    unfold clamp01
    rw [min_eq_left (by norm_num : (-(1/5):ℝ) ≤ 1),
      min_eq_left (by norm_num : (0:ℝ) ≤ 1),
      max_eq_left (by norm_num : (-(1/5):ℝ) ≤ 0), max_self]

/-- C4 counterexample: in the NAWCAD branch t_safe is computed from the raw
horizontal speed (line 165), not the restitution-scaled one.  With
restitution 1/2, impact speed 16 at 60 degrees (horizontal speed 8),
mass 8 and threshold var1 = 100 J (velocity_min_kill = 5), the condition
horizontal_speed * restitution = 4 ≤ 5 of the claim holds, yet the slide
area returned by critical_area is not 0. -/
theorem C4_counterexample :
    (1/2 : ℝ) * horizontal_speed_from_angle 60 16 ≤ Real.sqrt (2 * 100 / 8) ∧
    ((critical_area (3/10) (9/5) (ModelArg.valid ECriticalAreaModel.NAWCAD)
        ⟨1, 3/2, 8, 1/2, 1/2, 0⟩ ⟨1, 1⟩ 16 60 0 100).map
      fun r => decide (r.2.2.1 = 0)) = some false := by
  have hv : horizontal_speed_from_angle 60 16 = 8 := by
    unfold horizontal_speed_from_angle deg2rad
    rw [show (60:ℝ) * (Real.pi/180) = Real.pi/3 by ring, Real.cos_pi_div_three,
      abs_of_nonneg (by norm_num : (0:ℝ) ≤ 1/2)]
    norm_num
  have hsq : Real.sqrt (2 * 100 / 8 : ℝ) = 5 := by
    rw [show (2 * 100 / 8 : ℝ) = 5^2 by norm_num, Real.sqrt_sq (by norm_num)]
  refine ⟨by rw [hv, hsq]; norm_num, ?_⟩
  have hgd : glide_distance (9/5) 60 = some ((9/5) / Real.tan (deg2rad 60)) := by
    unfold glide_distance check_glide_angle
    norm_num
  simp only [critical_area, hgd, Option.some_bind, resolve_model, model_areas,
    Option.map_some']
  simp only [Option.some.injEq]
  rw [decide_eq_false_iff_not]
  have hs : (nawcad_areas (3/10) ⟨1, 3/2, 8, 1/2, 1/2, 0⟩ 100
      (horizontal_speed_from_angle 60 16) ((9/5) / Real.tan (deg2rad 60))).2 =
      (8 * (3 / (1/2 * GRAVITY)) - 0.5 * (1/2 * GRAVITY) * (3 / (1/2 * GRAVITY)) *
        (3 / (1/2 * GRAVITY))) * (2 * (3/10) + 1) := by
    simp only [nawcad_areas, nawcad_KE, hv]
    rw [if_neg (by norm_num : (100:ℝ) ≠ -1)]
    rw [show Real.sqrt (2 * 100 / 8) = 5 from hsq]
    rw [max_eq_right (div_nonneg (by norm_num) (by norm_num [GRAVITY]) :
      (0:ℝ) ≤ (8 - 5) / (1/2 * GRAVITY))]
    norm_num
  rw [hs]
  have hG : (0:ℝ) < GRAVITY := by norm_num [GRAVITY]
  rw [show (8 * (3 / (1/2 * GRAVITY)) - 0.5 * (1/2 * GRAVITY) * (3 / (1/2 * GRAVITY)) *
      (3 / (1/2 * GRAVITY))) * (2 * (3/10) + 1) = (39/2) / ((1/2) * GRAVITY) * (8/5) by
    field_simp
    ring]
  positivity

/-- C4 (amended): the slide area is exactly 0 whenever the speed entering the
t_safe clamp is at most velocity_min_kill = sqrt(2 KE / mass): for the
NAWCAD model that speed is the raw horizontal speed, for the JARUS model the
restitution-scaled one. -/
theorem C4_slide_zero (buffer : ℝ) (ac : AircraftSpecs) (var1 v gd : ℝ)
    (hf : 0 < ac.friction_coefficient) :
    (v ≤ Real.sqrt (2 * nawcad_KE var1 / ac.mass) →
      (nawcad_areas buffer ac var1 v gd).2 = 0) ∧
    (ac.coefficient_of_restitution * v ≤
        Real.sqrt (2 * jarus_KE ac.width var1 / ac.mass) →
      (jarus_areas buffer ac var1 v gd).2 = 0) := by
  have hG : (0:ℝ) < GRAVITY := by norm_num [GRAVITY]
  have ha : 0 < ac.friction_coefficient * GRAVITY := mul_pos hf hG
  constructor
  · intro hcond
    simp only [nawcad_areas]
    rw [max_eq_left (div_nonpos_iff.mpr (Or.inr ⟨by linarith, ha.le⟩))]
    ring
  · intro hcond
    simp only [jarus_areas]
    rw [max_eq_left (div_nonpos_iff.mpr (Or.inr ⟨by linarith, ha.le⟩))]
    ring

/-- C4 witness: with mass 8 and threshold 100 J (velocity_min_kill = 5),
NAWCAD at horizontal speed 4 and JARUS at horizontal speed 8 with
restitution 1/2 both give slide area 0. -/
theorem C4_slide_zero_at_5 :
    (nawcad_areas (3/10) ⟨1, 3/2, 8, 1/2, 1/2, 0⟩ 100 4 0).2 = 0 ∧
    (jarus_areas (3/10) ⟨1, 3/2, 8, 1/2, 1/2, 0⟩ 100 8 0).2 = 0 := by
  have hsq : Real.sqrt (2 * nawcad_KE 100 / (8:ℝ)) = 5 := by
    rw [show (2 * nawcad_KE 100 / 8 : ℝ) = 5^2 by norm_num [nawcad_KE],
      Real.sqrt_sq (by norm_num)]
  have hsq2 : Real.sqrt (2 * jarus_KE 1 100 / (8:ℝ)) = 5 := by
    rw [show (2 * jarus_KE 1 100 / 8 : ℝ) = 5^2 by norm_num [jarus_KE],
      Real.sqrt_sq (by norm_num)]
  exact ⟨(C4_slide_zero (3/10) ⟨1, 3/2, 8, 1/2, 1/2, 0⟩ 100 4 0 (by norm_num)).1
      (by rw [hsq]; norm_num),
    (C4_slide_zero (3/10) ⟨1, 3/2, 8, 1/2, 1/2, 0⟩ 100 8 0 (by norm_num)).2
      (by rw [hsq2]; norm_num)⟩

/-- When the discriminant is negative and hs is not 0, the clamp of line 133
makes y2 = 0 and the whole lens correction vanish. -/
theorem faa_A_C_mark_eq_zero (buffer width F_A height impact_angle : ℝ)
    (hy : faa_y2m_raw buffer width F_A height impact_angle < 0) :
    faa_A_C_mark buffer width F_A height impact_angle = 0 := by
  simp only [faa_A_C_mark]
  rw [max_eq_left hy.le, Real.sqrt_zero, zero_div]
  simp [Real.arcsin_zero]

/-- C3 counterexample: with buffer 0.3, width 1, F_A = 4, configured height
1.8 and impact angle 90 degrees, the discriminant y2m is negative, but
hs = 0 and the source computes y2 = 0.0/0.0 = NaN, which poisons A_C_mark
(modelled here as the none branch of faa_areas): the lens term does not
contribute 0. -/
theorem C3_counterexample :
    faa_y2m_raw (3/10) 1 4 (9/5) 90 < 0 ∧
    faa_areas (3/10) (9/5) ⟨1, 3/2, 8, 1/2, 1/2, 0⟩ 90 4 = none := by
  have hhs : faa_hs (9/5) 90 = 0 := by
    unfold faa_hs deg2rad
    norm_num
  constructor
  · unfold faa_y2m_raw
    rw [hhs, show Real.sqrt 4 = 2 by
      rw [show (4:ℝ) = 2^2 by norm_num, Real.sqrt_sq (by norm_num)]]
    norm_num
  · unfold faa_areas
    rw [if_pos]
    exact hhs

/-- C3 (amended): for every parameter combination making the discriminant
y2m negative in which hs is not 0, the FAA branch raises no domain error
(the clamp precedes the square root) and the lens term A_C_mark contributes
exactly 0 to the inert area, which is then exactly pi * r_Ac^2.  For hs = 0
(impact angle 90 degrees or height 0) the source instead produces NaN, as
the counterexample shows. -/
theorem C3_lens_zero (buffer height : ℝ) (ac : AircraftSpecs) (impact_angle var1 : ℝ)
    (hy : faa_y2m_raw buffer ac.width (faa_F_A var1) height impact_angle < 0)
    (hhs : faa_hs height impact_angle ≠ 0) :
    faa_A_C_mark buffer ac.width (faa_F_A var1) height impact_angle = 0 ∧
    faa_areas buffer height ac impact_angle var1 =
      some (Real.pi * (buffer + ac.width / 2) ^ 2,
        Real.pi * (buffer + ac.width / 2 * Real.sqrt (faa_F_A var1)) ^ 2 -
          Real.pi * (buffer + ac.width / 2) ^ 2) := by
  have hmark := faa_A_C_mark_eq_zero buffer ac.width (faa_F_A var1) height impact_angle hy
  refine ⟨hmark, ?_⟩
  unfold faa_areas
  rw [if_neg hhs, hmark, add_zero]

/-- C3 witness: buffer 0.3, width 1, F_A = 1 (var1 = 1), height 1.8, impact
angle 0: the discriminant is negative, hs = 1.8 is not 0, and the lens term
contributes exactly 0. -/
theorem C3_lens_zero_at_angle_0 :
    faa_A_C_mark (3/10) 1 (faa_F_A 1) (9/5) 0 = 0 ∧
    faa_areas (3/10) (9/5) ⟨1, 3/2, 8, 1/2, 1/2, 0⟩ 0 1 =
      some (Real.pi * ((3/10) + 1 / 2) ^ 2,
        Real.pi * ((3/10) + 1 / 2 * Real.sqrt (faa_F_A 1)) ^ 2 -
          Real.pi * ((3/10) + 1 / 2) ^ 2) := by
  have hs1 : faa_hs (9/5) 0 = 9/5 := by
    unfold faa_hs deg2rad
    rw [show ((90:ℝ) - 0) * (Real.pi/180) = Real.pi/2 by ring, Real.sin_pi_div_two]
    norm_num
  have hF : faa_F_A 1 = 1 := by unfold faa_F_A; norm_num
  have hy : faa_y2m_raw (3/10) 1 (faa_F_A 1) (9/5) 0 < 0 := by
    unfold faa_y2m_raw
    rw [hs1, hF, Real.sqrt_one]
    norm_num
  exact C3_lens_zero (3/10) (9/5) ⟨1, 3/2, 8, 1/2, 1/2, 0⟩ 0 1 hy
    (by rw [hs1]; norm_num)

/-- C7 counterexample: density 1, width 500 m, length 1000 m, p = 1/4.
Then p_none = 1/2, p < 1 - p_none, and the returned area is
Ac * reduction = 375000 with reduction = 3/4 — but reduction = 3/4 does not
solve the claimed equation p = 1 - (1-p_none)(1-reduction)^(density W L/1e6),
whose left side evaluates to 3/4, not 1/4. -/
theorem C7_counterexample :
    (1/4 : ℝ) < 1 - p_none_minimum 1 500 1000 ∧
    Ac_reduced 1 500 1000 (1/4) = 375000 ∧
    1 - (1 - p_none_minimum 1 500 1000) *
        (1 - Ac_reduced 1 500 1000 (1/4) / (500 * 1000)) ^
          ((1 : ℝ) * 500 * 1000 / 1000000) ≠ (1/4 : ℝ) := by
  have hpn : p_none_minimum 1 500 1000 = 1/2 := by
    unfold p_none_minimum
    rw [show (1 - 500 * 1000 / 1000000 : ℝ) = 1/2 by norm_num, Real.rpow_one]
  have hred : Ac_reduced 1 500 1000 (1/4) = 375000 := by
    unfold Ac_reduced
    rw [hpn, if_pos (by norm_num : (1/4 : ℝ) < 1 - 1/2)]
    rw [show (1 - (1/4 : ℝ) / (1 - 1/2)) = 1/2 by norm_num,
      show ((1:ℝ) / (1 / 1000000 * (500 * 1000))) = ((2:ℕ) : ℝ) by norm_num,
      Real.rpow_natCast]
    norm_num
  refine ⟨by rw [hpn]; norm_num, hred, ?_⟩
  rw [hpn, hred]
  rw [show (1 - (375000 : ℝ) / (500 * 1000)) = 1/4 by norm_num,
    show ((1 : ℝ) * 500 * 1000 / 1000000) = 1/2 by norm_num,
    ← Real.sqrt_eq_rpow,
    show (1/4 : ℝ) = (1/2)^2 by norm_num, Real.sqrt_sq (by norm_num)]
  norm_num

/-- C7 (amended): in compute_minimum_CDF, whenever p < 1 - p_none the
returned reduced area A satisfies
(1 - p_none) * (1 - (1 - A/(W L))^(density W L/1e6)) = p, i.e. the
reduction factor A/(W L) solves p = (1-p_none)(1 - (1-reduction)^(density
W L/1e6)) — note the source solves this equation, not the claimed
p = 1 - (1-p_none)(1-reduction)^(density W L/1e6); otherwise the full area
W L is returned. -/
theorem C7_reduced_area (density W L p : ℝ) (hd : 0 < density) (hW : 0 < W)
    (hL : 0 < L) (hp : 0 ≤ p) :
    (p < 1 - p_none_minimum density W L →
      (1 - p_none_minimum density W L) *
        (1 - (1 - Ac_reduced density W L p / (W * L)) ^
          (density * W * L / 1000000)) = p) ∧
    (¬ p < 1 - p_none_minimum density W L →
      Ac_reduced density W L p = W * L) := by
  constructor
  · intro hlt
    have hq : 0 < 1 - p_none_minimum density W L := lt_of_le_of_lt hp hlt
    have hAc : (0:ℝ) < W * L := mul_pos hW hL
    have hx : (0:ℝ) < 1 - p / (1 - p_none_minimum density W L) := by
      have h1 : p / (1 - p_none_minimum density W L) < 1 := (div_lt_one hq).mpr hlt
      linarith
    have hE : (density / 1000000 * (W * L)) ≠ 0 := by positivity
    unfold Ac_reduced
    rw [if_pos hlt]
    rw [show W * L * (1 - (1 - p / (1 - p_none_minimum density W L)) ^
        (1 / (density / 1000000 * (W * L)))) / (W * L) =
        1 - (1 - p / (1 - p_none_minimum density W L)) ^
          (1 / (density / 1000000 * (W * L))) by field_simp]
    rw [sub_sub_cancel]
    rw [show (density * W * L / 1000000) = density / 1000000 * (W * L) by ring]
    rw [← Real.rpow_mul hx.le, one_div_mul_cancel hE, Real.rpow_one]
    field_simp
  · intro hge
    unfold Ac_reduced
    rw [if_neg hge]

/-- C7 witness: density 1, width 500, length 1000, p = 1/4 (so
p < 1 - p_none = 1/2): the reduced area 375000 solves the corrected
equation. -/
theorem C7_reduced_area_at_quarter :
    ((1/4 : ℝ) < 1 - p_none_minimum 1 500 1000 →
      (1 - p_none_minimum 1 500 1000) *
        (1 - (1 - Ac_reduced 1 500 1000 (1/4) / (500 * 1000)) ^
          ((1:ℝ) * 500 * 1000 / 1000000)) = 1/4) ∧
    (¬ (1/4 : ℝ) < 1 - p_none_minimum 1 500 1000 →
      Ac_reduced 1 500 1000 (1/4) = 500 * 1000) :=
  C7_reduced_area 1 500 1000 (1/4) (by norm_num) (by norm_num) (by norm_num)
    (by norm_num)

/-- Every surviving location is strictly inside the corridor length and
comes from the location draws. -/
theorem survivors_lt_mem (L w : ℝ) (locs us : List ℝ) {m : ℝ}
    (hm : m ∈ survivors L w locs us) : m < L ∧ m ∈ locs := by
  unfold survivors at hm
  rcases List.mem_map.mp hm with ⟨p, hp, rfl⟩
  have hf := List.of_mem_filter hp
  have hz := List.mem_of_mem_filter hp
  unfold inside_CA at hf
  simp only [Bool.and_eq_true, decide_eq_true_eq] at hf
  exact ⟨hf.1, (List.of_mem_zip hz).1⟩

/-- A trial records the full corridor length exactly when no object
survives the membership test. -/
theorem trial_min_eq_iff_no_survivors (L w : ℝ) (locs us : List ℝ) :
    trial_min_distance L w locs us = L ↔
      (survivors L w locs us).isEmpty = true := by
  unfold trial_min_distance
  cases hsv : survivors L w locs us with
  | nil => simp
  | cons a tl =>
    cases hmin : (a :: tl).min? with
    | none => simp at hmin
    | some m =>
      have hmem : m ∈ a :: tl := List.min?_mem min_choice hmin
      have hmem' : m ∈ survivors L w locs us := by rw [hsv]; exact hmem
      have hlt := (survivors_lt_mem L w locs us hmem').1
      simp [hmin, ne_of_lt hlt]

/-- C10: for every realization of the random draws with non-negative
locations and a non-negative corridor length, every recorded stopping
distance lies in [0, L], the no-obstacle trial count is at most the number
of trials, and it equals exactly the number of trials whose recorded
stopping distance is L. -/
theorem C10_simulation_invariants (distance width : ℝ)
    (draws : List (List ℝ × List ℝ)) (hL : 0 ≤ distance)
    (hloc : ∀ d ∈ draws, ∀ x ∈ d.1, 0 ≤ x) :
    (simulate_minimum_CDF distance width draws).1.Forall
      (fun y => 0 ≤ y ∧ y ≤ distance) ∧
    (simulate_minimum_CDF distance width draws).2 ≤ draws.length ∧
    (simulate_minimum_CDF distance width draws).2 =
      ((simulate_minimum_CDF distance width draws).1.filter
        (fun y => decide (y = distance))).length := by
  refine ⟨?_, ?_, ?_⟩
  · rw [List.forall_iff_forall_mem]
    intro y hy
    simp only [simulate_minimum_CDF, List.mem_map] at hy
    rcases hy with ⟨d, hd, rfl⟩
    unfold trial_min_distance
    cases hsv : survivors distance width d.1 d.2 with
    | nil =>
      simp only [List.min?_nil, Option.getD_none]
      exact ⟨hL, le_refl distance⟩
    | cons a tl =>
      cases hmin : (a :: tl).min? with
      | none => simp at hmin
      | some m =>
        have hmem : m ∈ survivors distance width d.1 d.2 := by
          rw [hsv]; exact List.min?_mem min_choice hmin
        obtain ⟨hlt, hmlocs⟩ := survivors_lt_mem distance width d.1 d.2 hmem
        simp only [Option.getD_some]
        exact ⟨hloc d hd m hmlocs, hlt.le⟩
  · exact List.length_filter_le _ _
  · simp only [simulate_minimum_CDF]
    rw [← List.countP_eq_length_filter, ← List.countP_eq_length_filter,
      List.countP_map]
    refine (List.countP_congr ?_).symm
    intro d hd
    simp only [Function.comp_apply, decide_eq_true_eq]
    constructor
    · intro h
      exact (trial_min_eq_iff_no_survivors distance width d.1 d.2).mp h
    · intro h
      exact (trial_min_eq_iff_no_survivors distance width d.1 d.2).mpr h

/-- C10 witness: corridor length 2, width 500 (across threshold 1/2), two
trials: draws ([1, 3], [0, 2]) give one survivor at 1, draws ([5], [0]) give
none, so the stopping distances are [1, 2], and the no-obstacle count 1
equals the number of entries equal to 2. -/
theorem C10_simulation_invariants_at_two_trials :
    (simulate_minimum_CDF 2 500 [([1, 3], [0, 2]), ([5], [0])]).1.Forall
      (fun y => 0 ≤ y ∧ y ≤ 2) ∧
    (simulate_minimum_CDF 2 500 [([1, 3], [0, 2]), ([5], [0])]).2 ≤
      ([([1, 3], [0, 2]), ([5], [0])] : List (List ℝ × List ℝ)).length ∧
    (simulate_minimum_CDF 2 500 [([1, 3], [0, 2]), ([5], [0])]).2 =
      ((simulate_minimum_CDF 2 500 [([1, 3], [0, 2]), ([5], [0])]).1.filter
        (fun y => decide (y = 2))).length :=
  C10_simulation_invariants 2 500 [([1, 3], [0, 2]), ([5], [0])]
    (by norm_num)
    (by
      intro d hd x hx
      simp only [List.mem_cons, List.mem_singleton, List.not_mem_nil] at hd
      rcases hd with rfl | rfl | h
      · simp only [List.mem_cons, List.mem_singleton, List.not_mem_nil] at hx
        rcases hx with rfl | rfl | h
        · norm_num
        · norm_num
        · exact absurd h (by simp)
      · simp only [List.mem_cons, List.not_mem_nil] at hx
        rcases hx with rfl | h
        · norm_num
        · exact absurd h (by simp)
      · exact absurd h (by simp))

/-- For angles in [1, 179] the scalar glide_distance call succeeds and its
value is non-negative (the folded angle lies in [1, 90], where the tangent
is non-negative). -/
theorem glide_distance_some_nonneg (height a : ℝ) (hh : 0 ≤ height)
    (h1 : 1 ≤ a) (h2 : a ≤ 179) :
    ∃ gd, glide_distance height a = some gd ∧ 0 ≤ gd := by
  have hn : ¬(a < 0 ∨ a > 180) := by push_neg; constructor <;> linarith
  obtain ⟨af, haf, haf1, haf90⟩ :
      ∃ af, check_glide_angle a = some af ∧ 1 ≤ af ∧ af ≤ 90 := by
    unfold check_glide_angle
    rw [if_neg hn]
    by_cases hgt : a > 90
    · refine ⟨180 - a, ?_, by linarith, by linarith⟩
      simp only [if_pos hgt]
      rw [if_neg (by linarith : ¬(180 - a < 1))]
    · refine ⟨a, ?_, h1, by linarith⟩
      simp only [if_neg hgt]
      rw [if_neg (by linarith : ¬(a < 1))]
  refine ⟨(if height < 0 then 0 else height) / Real.tan (deg2rad af), ?_, ?_⟩
  · unfold glide_distance
    rw [haf]
    rfl
  · have hh1 : (0:ℝ) ≤ if height < 0 then 0 else height := by
      split
      · exact le_refl 0
      · exact hh
    apply div_nonneg hh1
    apply Real.tan_nonneg_of_nonneg_of_le_pi_div_two
    · unfold deg2rad
      have hpi := Real.pi_pos
      apply mul_nonneg (by linarith) (by positivity)
    · unfold deg2rad
      have hpi := Real.pi_pos
      rw [show Real.pi / 2 = 90 * (Real.pi / 180) by ring]
      exact mul_le_mul_of_nonneg_right haf90 (by positivity)

/-- The clamped constant-deceleration slide distance of the NAWCAD and JARUS
branches is non-negative. -/
theorem skid_nonneg (v vm acc : ℝ) (hv : 0 ≤ v) (hvm : 0 ≤ vm) (hacc : 0 ≤ acc) :
    0 ≤ v * max 0 ((v - vm) / acc) -
      0.5 * acc * max 0 ((v - vm) / acc) * max 0 ((v - vm) / acc) := by
  rcases le_or_lt ((v - vm) / acc) 0 with h | h
  · rw [max_eq_left h]
    norm_num
  · rw [max_eq_right h.le]
    have hacc1 : 0 < acc := by
      rcases hacc.eq_or_lt with heq | hpos
      · exfalso
        rw [← heq, div_zero] at h
        exact lt_irrefl 0 h
      · exact hpos
    have hvvm : vm < v := by
      by_contra hle
      push_neg at hle
      have hnp : (v - vm) / acc ≤ 0 :=
        div_nonpos_iff.mpr (Or.inr ⟨by linarith, hacc⟩)
      linarith
    have e : v * ((v - vm) / acc) - 0.5 * acc * ((v - vm) / acc) * ((v - vm) / acc) =
        (v - vm) * (v + vm) / (2 * acc) := by
      field_simp
      ring
    rw [e]
    exact div_nonneg (mul_nonneg (by linarith) (by linarith)) (by linarith)

/-- Bounds on the overlap combination step for non-negative inert and
deflagration areas. -/
theorem combine_bounds (i d c : ℝ) (hi : 0 ≤ i) (hd : 0 ≤ d) :
    combine_overlap i d c ≤ i + d ∧ i ≤ combine_overlap i d c ∧
    d ≤ combine_overlap i d c ∧ (c = 0 → combine_overlap i d c = i + d) := by
  have h0 := clamp01_nonneg c
  have h1 := clamp01_le_one c
  have hmin0 : 0 ≤ min i d := le_min hi hd
  have hmle : min i d * clamp01 c ≤ min i d := by nlinarith
  have hprod : 0 ≤ min i d * clamp01 c := mul_nonneg hmin0 h0
  unfold combine_overlap
  refine ⟨by linarith, ?_, ?_, ?_⟩
  · have := min_le_right i d
    linarith
  · have := min_le_left i d
    linarith
  · intro hc
    subst hc
    unfold clamp01
    rw [min_eq_left (by norm_num : (0:ℝ) ≤ 1), max_self]
    ring

/-- The claimed shape of a successful critical_area result: all five values
non-negative, total at most inert + deflagration (equal at overlap 0) and at
least each of inert and deflagration. -/
def ResultOK (c : ℝ) (r : Option (ℝ × ℝ × ℝ × ℝ × ℝ)) : Prop :=
  ∃ t g s i d, r = some (t, g, s, i, d) ∧ 0 ≤ t ∧ 0 ≤ g ∧ 0 ≤ s ∧ 0 ≤ i ∧
    0 ≤ d ∧ t ≤ i + d ∧ i ≤ t ∧ d ≤ t ∧ (c = 0 → t = i + d)

/-- C1 counterexample: a valid FAA call (conforming aircraft, width 1 m,
non-negative speed 10 m/s at 60 degrees, buffer 0.3, height 10) with the
overridable secondary-debris ratio var1 = F_A = 1/4 returns a negative
slide area: the FAA slide area is the unclamped remainder inert - glide =
pi r_Ac^2 - pi r_D^2 < 0 when r_Ac < r_D. -/
theorem C1_counterexample :
    ((critical_area (3/10) 10 (ModelArg.valid ECriticalAreaModel.FAA)
        ⟨1, 3/2, 8, 1/2, 1/2, 0⟩ ⟨1, 1⟩ 10 60 0 (1/4)).map
      fun r => decide (0 ≤ r.2.2.1)) = some false := by
  have hgd : glide_distance 10 60 = some (10 / Real.tan (deg2rad 60)) := by
    unfold glide_distance check_glide_angle
    norm_num
  have hhs : faa_hs 10 60 = 5 := by
    unfold faa_hs deg2rad
    rw [show ((90:ℝ) - 60) * (Real.pi / 180) = Real.pi / 6 by ring,
      Real.sin_pi_div_six]
    norm_num
  have hF : faa_F_A (1/4) = 1/4 := by
    unfold faa_F_A
    norm_num
  have hsqF : Real.sqrt (1/4 : ℝ) = 1/2 := by
    rw [show (1/4 : ℝ) = (1/2)^2 by norm_num, Real.sqrt_sq (by norm_num)]
  have hy : faa_y2m_raw (3/10) 1 (faa_F_A (1/4)) 10 60 < 0 := by
    unfold faa_y2m_raw
    rw [hhs, hF, hsqF]
    norm_num
  have hmark := faa_A_C_mark_eq_zero (3/10) 1 (faa_F_A (1/4)) 10 60 hy
  have hfa : faa_areas (3/10) 10 ⟨1, 3/2, 8, 1/2, 1/2, 0⟩ 60 (1/4) =
      some (Real.pi * ((3/10) + 1/2) ^ 2,
        Real.pi * ((3/10) + 1/2 * Real.sqrt (faa_F_A (1/4))) ^ 2 -
          Real.pi * ((3/10) + 1/2) ^ 2) := by
    unfold faa_areas
    rw [if_neg (by rw [hhs]; norm_num)]
    simp only
    rw [hmark, add_zero]
  simp only [critical_area, resolve_model, hgd, Option.some_bind, model_areas]
  rw [show (if (10:ℝ) < 0 then (0:ℝ) else 10) = 10 from if_neg (by norm_num)]
  rw [hfa]
  simp only [Option.map_some', Option.some.injEq]
  rw [decide_eq_false_iff_not, not_le, hF, hsqF]
  nlinarith [Real.pi_pos]

/-- C1 (amended): for every valid call with one of the models RCC, RTI,
NAWCAD, JARUS (conforming aircraft record, non-negative speed, configured
buffer and height non-negative, impact angle in the non-raising range
[1, 179]) the five returned values are all non-negative and the total
satisfies total ≤ inert + deflagration (with equality when the overlap
fraction is 0) and total ≥ max(inert, deflagration).  The FAA model is
excluded: its slide area is an unclamped remainder and can be negative, as
the counterexample shows. -/
theorem C1_nonneg_bounds (buffer height : ℝ) (m : ECriticalAreaModel)
    (ac : AircraftSpecs) (ex : ExplosionOut) (speed angle c var1 : ℝ)
    (hb : 0 ≤ buffer) (hh : 0 ≤ height) (hw : 0 ≤ ac.width) (hl : 0 ≤ ac.length)
    (hfr : 0 ≤ ac.friction_coefficient) (hcr : 0 ≤ ac.coefficient_of_restitution)
    (hFB : 0 ≤ ex.FB) (hTLA : 0 ≤ ex.TLA) (hsp : 0 ≤ speed)
    (ha1 : 1 ≤ angle) (ha2 : angle ≤ 179) (hm : m ≠ ECriticalAreaModel.FAA) :
    ResultOK c (critical_area buffer height (ModelArg.valid m) ac ex speed angle
      c var1) := by
  obtain ⟨gd, hgd, hgd0⟩ := glide_distance_some_nonneg height angle hh ha1 ha2
  have hhsp : 0 ≤ horizontal_speed_from_angle angle speed :=
    mul_nonneg (abs_nonneg _) hsp
  have hG : (0:ℝ) ≤ GRAVITY := by norm_num [GRAVITY]
  have hsdf : ∀ v f : ℝ, 0 ≤ f → 0 ≤ slide_distance_friction v f := by
    intro v f hf
    unfold slide_distance_friction
    exact div_nonneg (div_nonneg (div_nonneg (mul_self_nonneg v) (by norm_num)) hf) hG
  obtain ⟨g, s, hma, hg0, hs0⟩ :
      ∃ g s, model_areas m buffer (if height < 0 then 0 else height) ac angle var1
        (horizontal_speed_from_angle angle speed) gd = some (g, s) ∧
        0 ≤ g ∧ 0 ≤ s := by
    cases m with
    | FAA => exact absurd rfl hm
    | RCC =>
      refine ⟨_, _, rfl, ?_, ?_⟩
      · exact mul_nonneg (by linarith) (by linarith)
      · exact mul_nonneg (hsdf _ _ hfr) (by linarith)
    | RTI =>
      refine ⟨_, _, rfl, ?_, ?_⟩
      · apply add_nonneg
        · exact mul_nonneg (mul_nonneg (by norm_num) (by linarith)) hgd0
        · exact mul_nonneg Real.pi_pos.le (sq_nonneg _)
      · exact mul_nonneg (hsdf _ _ hfr) (by linarith)
    | NAWCAD =>
      refine ⟨_, _, rfl, ?_, ?_⟩
      · exact mul_nonneg hgd0 (by linarith)
      · refine mul_nonneg ?_ (by linarith)
        exact skid_nonneg _ _ _ hhsp (Real.sqrt_nonneg _) (mul_nonneg hfr hG)
    | JARUS =>
      refine ⟨_, _, rfl, ?_, ?_⟩
      · apply add_nonneg
        · exact mul_nonneg (mul_nonneg (by norm_num) (by linarith)) hgd0
        · exact mul_nonneg Real.pi_pos.le (sq_nonneg _)
      · refine mul_nonneg ?_ (by linarith)
        exact skid_nonneg _ _ _ (mul_nonneg hcr hhsp) (Real.sqrt_nonneg _)
          (mul_nonneg hfr hG)
  have hi0 : 0 ≤ g + s := add_nonneg hg0 hs0
  have hd0 : 0 ≤ LA_deflagration ex := le_trans hFB (le_max_left _ _)
  obtain ⟨hc1, hc2, hc3, hc4⟩ := combine_bounds (g + s) (LA_deflagration ex) c hi0 hd0
  refine ⟨combine_overlap (g + s) (LA_deflagration ex) c, g, s, g + s,
    LA_deflagration ex, ?_, le_trans hd0 hc3, hg0, hs0, hi0, hd0, hc1, hc2, hc3, hc4⟩
  simp only [critical_area, resolve_model, hgd, Option.some_bind, hma,
    Option.map_some']

/-- C1 witness: the RCC model with buffer 0.3, height 1.8, a conforming
aircraft, speed 10 m/s at 45 degrees, overlap 0 and default var1. -/
theorem C1_nonneg_bounds_at_RCC :
    ResultOK 0 (critical_area (3/10) (9/5) (ModelArg.valid ECriticalAreaModel.RCC)
      ⟨1, 3/2, 8, 1/2, 1/2, 0⟩ ⟨1, 1⟩ 10 45 0 (-1)) :=
  C1_nonneg_bounds (3/10) (9/5) ECriticalAreaModel.RCC ⟨1, 3/2, 8, 1/2, 1/2, 0⟩
    ⟨1, 1⟩ 10 45 0 (-1) (by norm_num) (by norm_num) (by norm_num) (by norm_num)
    (by norm_num) (by norm_num) (by norm_num) (by norm_num) (by norm_num)
    (by norm_num) (by norm_num) (by decide)

end Casex

end
